import Mathlib

/-!
Shallow embedding of the print-estimator backend
(`app/services/pricing.py`, `app/services/validator.py`,
`app/schemas/print_specs.py`) and proofs about it.

Money amounts are modelled as exact rationals (`ℚ`); every constant in the
embedded default configuration is an exact decimal, so rational arithmetic
reproduces the intended values of the Python formulas exactly.  Python
`round(x, 2)` is modelled as round-half-to-even on the rational value
(`round2` below), Python `int(x)` as truncation toward zero (`pyInt`),
and Python truthiness of optional strings/ints is modelled explicitly
(`pyOrStr`, `pyOrInt`, `truthyStr`).
-/

set_option autoImplicit false

namespace PrintEstimator

/-! ## Python-semantics helpers -/

/-- Python `x or default` for an optional string: `None` and `""` are falsy. -/
def pyOrStr (s : Option String) (d : String) : String :=
  match s with
  | none => d
  | some s => if s = "" then d else s

/-- Python `x or default` for an optional int: `None` and `0` are falsy. -/
def pyOrInt (n : Option Int) (d : Int) : Int :=
  match n with
  | none => d
  | some n => if n = 0 then d else n

/-- Python truthiness of an optional bool (`None` is falsy). -/
def pyBool (b : Option Bool) : Bool := b.getD false

/-- Python truthiness of an optional string (`None` and `""` are falsy). -/
def truthyStr (s : Option String) : Bool :=
  match s with
  | none => false
  | some s => s ≠ ""

/-- Python `int(x)` on a rational: truncation toward zero. -/
def pyInt (x : ℚ) : Int := if 0 ≤ x then ⌊x⌋ else -⌊-x⌋

/-- Python `round(x, 2)` rounds half to even; this is the integer rounding. -/
def roundHalfEven (x : ℚ) : ℤ :=
  let f : ℤ := ⌊x⌋
  let d : ℚ := x - f
  if d < 1/2 then f
  else if 1/2 < d then f + 1
  else if f % 2 = 0 then f else f + 1

/-- Python `round(x, 2)`: round to two decimal places, half to even. -/
def round2 (x : ℚ) : ℚ := (roundHalfEven (x * 100) : ℚ) / 100

/-- Lexicographic comparison of char lists by code point, as Python compares
strings.  (Defined structurally so that it evaluates in the kernel.) -/
def charListLe : List Char → List Char → Bool
  | [], _ => true
  | _ :: _, [] => false
  | a :: as, b :: bs =>
      if a.val < b.val then true
      else if b.val < a.val then false
      else charListLe as bs

/-- Python `a <= b` on strings (lexicographic by code point). -/
def strLe (a b : String) : Bool := charListLe a.data b.data

/-- Insert into an ascending list, after any equal elements (stable). -/
def insertAsc (x : String) : List String → List String
  | [] => [x]
  | y :: rest => if strLe y x then y :: insertAsc x rest else x :: y :: rest

/-- Python `sorted` on strings: stable ascending insertion sort. -/
def sortStringsAsc (l : List String) : List String :=
  l.foldl (fun acc x => insertAsc x acc) []

/-- Remove duplicates keeping first occurrences (used to model Python sets
built from a list; Python set iteration order is unspecified, we fix the
first-occurrence order of the underlying list). -/
def dedupFirstAux (seen : List String) : List String → List String
  | [] => []
  | x :: rest =>
      if seen.contains x then dedupFirstAux seen rest
      else x :: dedupFirstAux (x :: seen) rest

/-- Remove duplicates from a string list, keeping first occurrences. -/
def dedupFirst (l : List String) : List String := dedupFirstAux [] l

/-- Python `sep.join(l)`. -/
def joinSep (sep : String) : List String → String
  | [] => ""
  | [x] => x
  | x :: y :: rest => x ++ sep ++ joinSep sep (y :: rest)

/-- Does `needle` occur at the start of `hay`? -/
def startsWithList : List Char → List Char → Bool
  | [], _ => true
  | _ :: _, [] => false
  | a :: as, b :: bs => a = b && startsWithList as bs

/-- Does `needle` occur anywhere in `hay`? -/
def containsList (needle : List Char) : List Char → Bool
  | [] => startsWithList needle []
  | c :: rest => startsWithList needle (c :: rest) || containsList needle rest

/-- Substring test: does `pat` occur in `s`? -/
def strContains (s pat : String) : Bool := containsList pat.data s.data

/-- Python f-string rendering of an `Optional[str]` (`None` prints as "None"). -/
def reprOptStr (s : Option String) : String :=
  match s with
  | none => "None"
  | some s => s

/-- Group reversed digits in threes, inserting commas (helper for `commaGroup`). -/
def commaGroupAux : List Char → List Char
  | [] => []
  | [a] => [a]
  | [a, b] => [a, b]
  | [a, b, c] => [a, b, c]
  | a :: b :: c :: d :: rest => a :: b :: c :: ',' :: commaGroupAux (d :: rest)

/-- Python `f"{n:,}"`: decimal rendering with thousands separators. -/
def commaGroup (n : Int) : String :=
  let s := toString n.natAbs
  (if n < 0 then "-" else "") ++ String.mk (commaGroupAux s.data.reverse).reverse

/-- Python `f"{x:.2f}"` for an amount that is an exact multiple of a cent
(every configured minimum price is). -/
def format2 (x : ℚ) : String :=
  let c : Int := roundHalfEven (x * 100)
  let sign := if c < 0 then "-" else ""
  let a := c.natAbs
  sign ++ toString (a / 100) ++ "." ++
    (if a % 100 < 10 then "0" ++ toString (a % 100) else toString (a % 100))

/-! ## Data model, from `app/schemas/print_specs.py` -/

/-- `sides` field values (`Literal["single", "double"]`). -/
inductive Sides
  | single
  | double
deriving DecidableEq

/-- `color_mode` field values (`Literal["full_color", "black_white", "spot_color"]`). -/
inductive ColorMode
  | full_color
  | black_white
  | spot_color
deriving DecidableEq

/-- The string value of a color mode, as used for the modifier lookup. -/
def ColorMode.key : ColorMode → String
  | .full_color => "full_color"
  | .black_white => "black_white"
  | .spot_color => "spot_color"

/-- `PrintSpecs`: extracted print job specifications.  All fields optional,
mirroring the pydantic model. -/
structure PrintSpecs where
  product_type : Option String := none
  quantity : Option Int := none
  size : Option String := none
  paper_stock : Option String := none
  sides : Option Sides := none
  finish : Option String := none
  color_mode : Option ColorMode := none
  options : List String := []
  turnaround_days : Option Int := none
  is_rush : Option Bool := some false
  artwork_dpi : Option Int := none
  raw_input : Option String := none
deriving DecidableEq

/-- The pydantic field constraint on `PrintSpecs`: `quantity` has `ge=1`.
Every `PrintSpecs` built through pydantic validation satisfies this. -/
def PrintSpecs.Wf (s : PrintSpecs) : Prop := ∀ q ∈ s.quantity, 1 ≤ q

instance (s : PrintSpecs) : Decidable s.Wf := by
  unfold PrintSpecs.Wf
  infer_instance

/-- `ValidationResult`: outcome of specification validation. -/
structure ValidationResult where
  is_valid : Bool
  errors : List String
  warnings : List String
  missing_fields : List String
deriving DecidableEq

/-- `PricingBreakdown`: itemized cost components.  `option_costs` is the
insertion-ordered dict, modelled as an association list. -/
structure PricingBreakdown where
  material_cost : ℚ
  print_cost : ℚ
  setup_cost : ℚ
  finishing_cost : ℚ
  option_costs : List (String × ℚ)
  rush_fee : ℚ
  quantity_discount : ℚ
  margin_amount : ℚ
  margin_percent : ℚ
deriving DecidableEq

/-- `PriceEstimate`: complete price estimate. -/
structure PriceEstimate where
  print_method : String
  print_method_reason : String
  breakdown : PricingBreakdown
  subtotal : ℚ
  tax : ℚ
  total : ℚ
  currency : String
  estimate_notes : List String
deriving DecidableEq

/-! ## Validator configuration, from `app/services/validator.py` -/

/-- Whitelisted product types (a Python set; membership and sorting only). -/
def VALID_PRODUCT_TYPES : List String :=
  ["business_cards", "flyers", "posters", "brochures", "booklets",
   "stickers", "banners", "postcards", "letterhead", "envelopes",
   "folders", "notepads", "catalogs", "magazines"]

/-- Whitelisted finishing options. -/
def VALID_OPTIONS : List String :=
  ["rounded_corners", "foil_stamping", "embossing", "spot_uv", "die_cut",
   "hole_punch", "scoring", "perforation", "lamination", "uv_coating"]

/-- Quantity limits for one product type. -/
structure QuantityLimits where
  min : Int
  max : Int
deriving DecidableEq

/-- `QUANTITY_LIMITS` dict. -/
def QUANTITY_LIMITS (k : String) : Option QuantityLimits :=
  if k = "business_cards" then some ⟨100, 100000⟩
  else if k = "flyers" then some ⟨50, 500000⟩
  else if k = "posters" then some ⟨1, 10000⟩
  else if k = "brochures" then some ⟨50, 100000⟩
  else if k = "booklets" then some ⟨25, 50000⟩
  else if k = "stickers" then some ⟨50, 500000⟩
  else if k = "banners" then some ⟨1, 500⟩
  else if k = "postcards" then some ⟨100, 500000⟩
  else if k = "default" then some ⟨1, 100000⟩
  else none

/-- The `QUANTITY_LIMITS["default"]` entry. -/
def defaultLimits : QuantityLimits := ⟨1, 100000⟩

/-- `STANDARD_SIZES` dict. -/
def STANDARD_SIZES (k : String) : Option (List String) :=
  if k = "business_cards" then some ["3.5x2", "2x3.5", "3x3"]
  else if k = "flyers" then some ["8.5x11", "5.5x8.5", "4x6", "11x17"]
  else if k = "posters" then some ["11x17", "18x24", "24x36"]
  else if k = "postcards" then some ["4x6", "5x7", "6x9"]
  else none

/-- Minimum recommended artwork resolution. -/
def MIN_PRINT_DPI : Int := 300

/-- Below this resolution artwork is rejected. -/
def WARN_DPI_THRESHOLD : Int := 200

/-- The slow-production options that conflict with rush turnaround. -/
def slow_options : List String := ["foil_stamping", "embossing", "die_cut"]

/-! ## Validator, from `validate_specs` in `app/services/validator.py`.

The Python function appends to three lists (`errors`, `warnings`,
`missing_fields`) while walking a fixed sequence of checks; we model each
check's contribution as a list and concatenate them in the source order. -/

/-- Errors from the product-type check. -/
def productTypeErrors (s : PrintSpecs) : List String :=
  if ¬ truthyStr s.product_type then
    ["Product type is required. Examples: business_cards, flyers, posters, brochures"]
  else if (s.product_type.getD "") ∉ VALID_PRODUCT_TYPES then
    ["Unknown product type \x27" ++ s.product_type.getD "" ++ "\x27. Valid types: " ++
      joinSep ", " (sortStringsAsc VALID_PRODUCT_TYPES)]
  else []

/-- Errors from the quantity check. -/
def quantityErrors (s : PrintSpecs) : List String :=
  match s.quantity with
  | none => ["Quantity is required"]
  | some q =>
      if q ≤ 0 then ["Quantity must be a positive number"]
      else
        let limits := (QUANTITY_LIMITS (pyOrStr s.product_type "default")).getD defaultLimits
        if q < limits.min then
          ["Minimum quantity for " ++ reprOptStr s.product_type ++ " is " ++
            toString limits.min ++ " units"]
        else if q > limits.max then
          ["Maximum quantity for " ++ reprOptStr s.product_type ++ " is " ++
            commaGroup limits.max ++ ". Contact sales for bulk orders."]
        else []

/-- Warnings (and missing-field entry) from the size check. -/
def sizeWarnings (s : PrintSpecs) : List String :=
  if ¬ truthyStr s.size then
    ["Size not specified - using standard size for product type"]
  else
    match s.product_type with
    | none => []
    | some pt =>
        if truthyStr s.product_type then
          match STANDARD_SIZES pt with
          | none => []
          | some standard =>
              if (s.size.getD "") ∉ standard then
                ["Non-standard size \x27" ++ s.size.getD "" ++ "\x27 for " ++ pt ++
                  ". Standard sizes: " ++ joinSep ", " standard ++
                  ". Custom sizing may affect price."]
              else []
        else []

/-- Missing-field entries from the size check. -/
def sizeMissing (s : PrintSpecs) : List String :=
  if ¬ truthyStr s.size then ["size"] else []

/-- Errors from the artwork-resolution check. -/
def dpiErrors (s : PrintSpecs) : List String :=
  match s.artwork_dpi with
  | none => []
  | some dpi =>
      if dpi < WARN_DPI_THRESHOLD then
        ["Artwork resolution too low (" ++ toString dpi ++ " DPI). Minimum " ++
          toString MIN_PRINT_DPI ++
          " DPI required for print quality. Please provide higher resolution artwork."]
      else []

/-- Warnings from the artwork-resolution check. -/
def dpiWarnings (s : PrintSpecs) : List String :=
  match s.artwork_dpi with
  | none => []
  | some dpi =>
      if dpi < WARN_DPI_THRESHOLD then []
      else if dpi < MIN_PRINT_DPI then
        ["Artwork resolution (" ++ toString dpi ++ " DPI) is below recommended " ++
          toString MIN_PRINT_DPI ++ " DPI. Print quality may be affected."]
      else []

/-- The options requested that belong to the slow-production set
(Python `set(specs.options) & slow_options`; set order fixed as
first-occurrence order of the request). -/
def conflicting (s : PrintSpecs) : List String :=
  dedupFirst (s.options.filter (fun o => slow_options.contains o))

/-- The rush/slow-option conflict error message. -/
def conflictError (s : PrintSpecs) : String :=
  "Rush turnaround conflicts with options: " ++ joinSep ", " (conflicting s) ++
    ". These options require 5+ business days."

/-- Errors from the turnaround check (negative turnaround, rush conflicts). -/
def turnaroundErrors (s : PrintSpecs) : List String :=
  match s.turnaround_days with
  | none => []
  | some t =>
      (if t < 0 then ["Turnaround days cannot be negative"] else []) ++
      (if t ≤ 2 ∧ s.options ≠ [] then
        (if conflicting s ≠ [] then [conflictError s] else [])
      else [])

/-- Warnings from the turnaround check. -/
def turnaroundWarnings (s : PrintSpecs) : List String :=
  match s.turnaround_days with
  | none => []
  | some t =>
      if t < 0 then []
      else if t = 0 then
        ["Same-day turnaround requested. Subject to availability and rush fees apply."]
      else if t ≤ 2 then
        [toString t ++ "-day rush turnaround. Rush fees will apply."]
      else []

/-- Warnings from the options check (unknown options, emboss+lamination). -/
def optionsWarnings (s : PrintSpecs) : List String :=
  if s.options ≠ [] then
    (let unknown := sortStringsAsc (dedupFirst
      (s.options.filter (fun o => ¬ VALID_OPTIONS.contains o)))
     if unknown ≠ [] then
       ["Unknown options will be ignored: " ++ joinSep ", " unknown]
     else []) ++
    (if s.options.contains "embossing" ∧ s.options.contains "lamination" then
      ["Embossing and lamination together may affect emboss visibility"]
    else [])
  else []

/-- Warnings from the defaultable-field checks. -/
def defaultFieldWarnings (s : PrintSpecs) : List String :=
  (if s.sides = none then ["Sides not specified - defaulting to single-sided"] else []) ++
  (if ¬ truthyStr s.finish then ["Finish not specified - defaulting to matte"] else []) ++
  (if s.color_mode = none then ["Color mode not specified - assuming full color"] else [])

/-- Missing-field entries from the defaultable-field checks. -/
def defaultFieldMissing (s : PrintSpecs) : List String :=
  (if s.sides = none then ["sides"] else []) ++
  (if ¬ truthyStr s.finish then ["finish"] else []) ++
  (if s.color_mode = none then ["color_mode"] else []) ++
  (if ¬ truthyStr s.paper_stock then ["paper_stock"] else [])

/-- Business-rule warnings (never block). -/
def businessWarnings (s : PrintSpecs) : List String :=
  (match s.quantity with
   | none => []
   | some q => if q ≠ 0 ∧ q ≥ 5000 then
       ["Large order: may qualify for additional volume discounts. Contact sales for custom quote."]
     else []) ++
  (if s.options ≠ [] ∧
      (s.options.contains "foil_stamping" ∨ s.options.contains "embossing") then
    ["Specialty finishes (foil/emboss) add 5-7 business days to production"]
  else [])

/-- The accumulated error list of `validate_specs`, in source order. -/
def allErrors (s : PrintSpecs) : List String :=
  productTypeErrors s ++ quantityErrors s ++ dpiErrors s ++ turnaroundErrors s

/-- The accumulated warning list of `validate_specs`, in source order. -/
def allWarnings (s : PrintSpecs) : List String :=
  sizeWarnings s ++ dpiWarnings s ++ turnaroundWarnings s ++ optionsWarnings s ++
    defaultFieldWarnings s ++ businessWarnings s

/-- The accumulated missing-fields list of `validate_specs`, in source order. -/
def allMissing (s : PrintSpecs) : List String :=
  sizeMissing s ++ defaultFieldMissing s

/-- `validate_specs`, from `app/services/validator.py`. -/
def validate_specs (specs : Option PrintSpecs) : ValidationResult :=
  match specs with
  | none =>
      { is_valid := false
        errors := ["No specifications could be extracted from input"]
        warnings := []
        missing_fields := [] }
  | some s =>
      { is_valid := (allErrors s).isEmpty
        errors := allErrors s
        warnings := allWarnings s
        missing_fields := allMissing s }

/-! ## Pricing configuration, from `get_default_pricing_config` in
`app/services/pricing.py`.  The repository ships no `data/pricing.json`,
so `load_pricing_config` always falls back to this embedded default. -/

/-- Per-product base rates. -/
structure ProductConfig where
  material_per_unit : ℚ
  print_per_unit : ℚ
  finishing_per_unit : ℚ
  minimum_quantity : Int
  minimum_price : ℚ
  default_size : String
deriving DecidableEq

/-- The `"default"` product entry. -/
def defaultProduct : ProductConfig :=
  { material_per_unit := 5/100
    print_per_unit := 10/100
    finishing_per_unit := 3/100
    minimum_quantity := 1
    minimum_price := 25
    default_size := "8.5x11" }

/-- The `"products"` table of the default configuration. -/
def products (k : String) : Option ProductConfig :=
  if k = "business_cards" then some
    { material_per_unit := 2/100, print_per_unit := 4/100, finishing_per_unit := 2/100
      minimum_quantity := 100, minimum_price := 2999/100, default_size := "3.5x2" }
  else if k = "flyers" then some
    { material_per_unit := 3/100, print_per_unit := 8/100, finishing_per_unit := 2/100
      minimum_quantity := 50, minimum_price := 35, default_size := "8.5x11" }
  else if k = "brochures" then some
    { material_per_unit := 8/100, print_per_unit := 15/100, finishing_per_unit := 5/100
      minimum_quantity := 50, minimum_price := 75, default_size := "8.5x11" }
  else if k = "posters" then some
    { material_per_unit := 25/100, print_per_unit := 50/100, finishing_per_unit := 10/100
      minimum_quantity := 1, minimum_price := 15, default_size := "18x24" }
  else if k = "postcards" then some
    { material_per_unit := 3/100, print_per_unit := 5/100, finishing_per_unit := 2/100
      minimum_quantity := 100, minimum_price := 30, default_size := "4x6" }
  else if k = "default" then some defaultProduct
  else none

/-- Print-method parameters. -/
structure MethodConfig where
  setup_cost : ℚ
  cost_multiplier : ℚ
deriving DecidableEq

/-- The `"print_method"` table (setup cost and multiplier per method). -/
def print_method_table (k : String) : Option MethodConfig :=
  if k = "digital" then some { setup_cost := 15, cost_multiplier := 1 }
  else if k = "offset" then some { setup_cost := 150, cost_multiplier := 6/10 }
  else none

/-- `print_method.threshold_quantity` in the default configuration. -/
def threshold_quantity : Int := 500

/-- Pricing mode of a finishing option. -/
inductive OptionKind
  | flat
  | per_unit
deriving DecidableEq

/-- One entry of the `"options"` table. -/
structure OptionConfig where
  price : ℚ
  kind : OptionKind
deriving DecidableEq

/-- The `"options"` table of the default configuration. -/
def options_config (k : String) : Option OptionConfig :=
  if k = "rounded_corners" then some ⟨15, .flat⟩
  else if k = "foil_stamping" then some ⟨8/100, .per_unit⟩
  else if k = "embossing" then some ⟨10/100, .per_unit⟩
  else if k = "spot_uv" then some ⟨25, .flat⟩
  else if k = "die_cut" then some ⟨75, .flat⟩
  else if k = "lamination" then some ⟨3/100, .per_unit⟩
  else if k = "uv_coating" then some ⟨2/100, .per_unit⟩
  else if k = "hole_punch" then some ⟨10, .flat⟩
  else if k = "scoring" then some ⟨1/100, .per_unit⟩
  else if k = "perforation" then some ⟨2/100, .per_unit⟩
  else none

/-- The `"modifiers"` table of the default configuration. -/
def modifiers (k : String) : Option ℚ :=
  if k = "double_sided" then some (16/10)
  else if k = "full_color" then some 1
  else if k = "black_white" then some (5/10)
  else if k = "spot_color" then some (75/100)
  else if k = "gloss_finish" then some (11/10)
  else if k = "matte_finish" then some 1
  else if k = "satin_finish" then some (105/100)
  else if k = "uncoated" then some (9/10)
  else none

/-- One quantity-discount tier. -/
structure DiscountTier where
  min_quantity : Int
  discount : ℚ
deriving DecidableEq

/-- The `"quantity_discounts"` list of the default configuration, in its
source order (ascending minimum quantity). -/
def quantity_discounts : List DiscountTier :=
  [⟨250, 5/100⟩, ⟨500, 10/100⟩, ⟨1000, 15/100⟩, ⟨5000, 20/100⟩, ⟨10000, 25/100⟩]

/-- `rush_pricing.same_day` multiplier. -/
def rush_same_day : ℚ := 2

/-- `rush_pricing.next_day` multiplier. -/
def rush_next_day : ℚ := 15/10

/-- `rush_pricing."2_day"` multiplier. -/
def rush_2_day : ℚ := 125/100

/-- `margin_percent` of the default configuration. -/
def margin_percent : ℚ := 30/100

/-- `tax_rate` of the default configuration. -/
def tax_rate : ℚ := 0

/-! ## Print-method decision, from `determine_print_method`. -/

/-- `determine_print_method`: pure function of quantity (threshold from the
default configuration), returning the method and a justification string. -/
def determine_print_method (quantity : Int) : String × String :=
  if quantity < threshold_quantity then
    ("digital",
      "Digital printing selected: quantity (" ++ toString quantity ++ ") below " ++
        toString threshold_quantity ++
        " threshold. Faster turnaround, no plate setup required.")
  else
    ("offset",
      "Offset printing selected: quantity (" ++ toString quantity ++ ") at or above " ++
        toString threshold_quantity ++
        " threshold. Lower per-unit cost at scale, requires plate setup.")

/-! ## Pricing pipeline, from `calculate_price` in `app/services/pricing.py`.
Each intermediate value of the Python function body is one definition here,
in the order the source computes them; `calculate_price` assembles the
result record exactly as the source's final `PriceEstimate(...)` call does. -/

/-- `quantity = specs.quantity or 1`. -/
def effQuantity (s : PrintSpecs) : Int := pyOrInt s.quantity 1

/-- `product_config = config["products"].get(specs.product_type or "default",
config["products"]["default"])`. -/
def product_config (s : PrintSpecs) : ProductConfig :=
  (products (pyOrStr s.product_type "default")).getD defaultProduct

/-- `print_method, method_reason = determine_print_method(quantity, config)`. -/
def print_method (s : PrintSpecs) : String := (determine_print_method (effQuantity s)).1

/-- The human-readable justification of the method decision. -/
def method_reason (s : PrintSpecs) : String := (determine_print_method (effQuantity s)).2

/-- `method_config = config.get("print_method", {}).get(print_method, {})`,
with the source's `.get("setup_cost", 15.0)` / `.get("cost_multiplier", 1.0)`
fallbacks folded into a default record. -/
def method_config (s : PrintSpecs) : MethodConfig :=
  (print_method_table (print_method s)).getD { setup_cost := 15, cost_multiplier := 1 }

/-- `material_cost = product_config["material_per_unit"] * quantity`. -/
def material_cost (s : PrintSpecs) : ℚ :=
  (product_config s).material_per_unit * (effQuantity s : ℚ)

/-- `modifier_total`: product of the applicable modifier factors. -/
def modifier_total (s : PrintSpecs) : ℚ :=
  (if s.sides = some Sides.double then (modifiers "double_sided").getD (16/10) else 1) *
  (match s.color_mode with
   | some cm => (modifiers cm.key).getD 1
   | none => 1) *
  (match s.finish with
   | none => 1
   | some f =>
      if f = "" then 1
      else
        let finish_key := if f.endsWith "_finish" then f else f ++ "_finish"
        (modifiers finish_key).getD ((modifiers f).getD 1))

/-- `print_cost` after the method multiplier and the modifier factor. -/
def print_cost (s : PrintSpecs) : ℚ :=
  (product_config s).print_per_unit * (effQuantity s : ℚ) *
    (method_config s).cost_multiplier * modifier_total s

/-- `setup_cost = method_config.get("setup_cost", 15.00)`. -/
def setup_cost (s : PrintSpecs) : ℚ := (method_config s).setup_cost

/-- `finishing_cost` after the modifier factor. -/
def finishing_cost (s : PrintSpecs) : ℚ :=
  (product_config s).finishing_per_unit * (effQuantity s : ℚ) * modifier_total s

/-- Insert into (or overwrite in) an insertion-ordered dict. -/
def dictInsert (d : List (String × ℚ)) (k : String) (v : ℚ) : List (String × ℚ) :=
  if d.any (fun p => p.1 = k) then d.map (fun p => if p.1 = k then (k, v) else p)
  else d ++ [(k, v)]

/-- The cost of one recognised option (`flat` vs `per_unit`). -/
def option_cost (s : PrintSpecs) (oc : OptionConfig) : ℚ :=
  match oc.kind with
  | .flat => oc.price
  | .per_unit => oc.price * (effQuantity s : ℚ)

/-- `option_costs`: the dict built by the option loop (unknown options are
skipped). -/
def option_costs (s : PrintSpecs) : List (String × ℚ) :=
  s.options.foldl
    (fun acc o =>
      match options_config o with
      | some oc => dictInsert acc o (option_cost s oc)
      | none => acc)
    []

/-- The notes the option loop appends for options not in the catalog. -/
def option_notes (s : PrintSpecs) : List String :=
  s.options.filterMap fun o =>
    match options_config o with
    | some _ => none
    | none => some ("Option \x27" ++ o ++ "\x27 not in pricing catalog")

/-- `base_total = material_cost + print_cost + setup_cost + finishing_cost`. -/
def base_total (s : PrintSpecs) : ℚ :=
  material_cost s + print_cost s + setup_cost s + finishing_cost s

/-- `options_total = sum(option_costs.values())`. -/
def options_total (s : PrintSpecs) : ℚ := ((option_costs s).map Prod.snd).sum

/-- `pre_discount_total = base_total + options_total`. -/
def pre_discount_total (s : PrintSpecs) : ℚ := base_total s + options_total s

/-- Stable insertion into a list sorted descending by minimum quantity. -/
def insertTierDesc (t : DiscountTier) : List DiscountTier → List DiscountTier
  | [] => [t]
  | t2 :: rest =>
      if t.min_quantity ≤ t2.min_quantity then t2 :: insertTierDesc t rest
      else t :: t2 :: rest

/-- Python `sorted(tiers, key=min_quantity, reverse=True)`: stable descending
sort of the discount tiers. -/
def sortTiersDesc (l : List DiscountTier) : List DiscountTier :=
  l.foldl (fun acc t => insertTierDesc t acc) []

/-- The discount-tier loop: first tier (scanning highest minimum first)
whose minimum quantity is at most the order quantity. -/
def selected_tier (quantity : Int) : Option DiscountTier :=
  (sortTiersDesc quantity_discounts).find? (fun t => quantity ≥ t.min_quantity)

/-- The discount fraction selected for a quantity (0 when no tier matches). -/
def discount_rate (quantity : Int) : ℚ :=
  match selected_tier quantity with
  | some t => t.discount
  | none => 0

/-- `quantity_discount = -pre_discount_total * discount_rate` (0 when no
tier matches). -/
def quantity_discount (s : PrintSpecs) : ℚ :=
  match selected_tier (effQuantity s) with
  | some t => -pre_discount_total s * t.discount
  | none => 0

/-- The note recorded when a discount tier fires. -/
def discount_notes (s : PrintSpecs) : List String :=
  match selected_tier (effQuantity s) with
  | some t => [toString (pyInt (t.discount * 100)) ++ "% volume discount applied"]
  | none => []

/-- The rush-branch condition:
`specs.is_rush or (specs.turnaround_days is not None and specs.turnaround_days <= 2)`. -/
def rush_condition (s : PrintSpecs) : Bool :=
  pyBool s.is_rush ||
    (match s.turnaround_days with
     | some t => decide (t ≤ 2)
     | none => false)

/-- The rush multiplier the `elif` chain selects (the final `else` covers
both an absent turnaround and any turnaround outside 0/1/2). -/
def rush_multiplier (s : PrintSpecs) : ℚ :=
  if s.turnaround_days = some 0 then rush_same_day
  else if s.turnaround_days = some 1 then rush_next_day
  else if s.turnaround_days = some 2 then rush_2_day
  else rush_next_day

/-- The rush label the `elif` chain selects. -/
def rush_type (s : PrintSpecs) : String :=
  if s.turnaround_days = some 0 then "Same-day"
  else if s.turnaround_days = some 1 then "Next-day"
  else if s.turnaround_days = some 2 then "2-day"
  else "Rush"

/-- `rush_fee = (pre_discount_total + quantity_discount) * (rush_multiplier - 1)`
when the rush branch triggers, else 0. -/
def rush_fee (s : PrintSpecs) : ℚ :=
  if rush_condition s then
    (pre_discount_total s + quantity_discount s) * (rush_multiplier s - 1)
  else 0

/-- The note recorded when the rush branch triggers. -/
def rush_notes (s : PrintSpecs) : List String :=
  if rush_condition s then
    [rush_type s ++ " rush fee applied (" ++
      toString (pyInt ((rush_multiplier s - 1) * 100)) ++ "% surcharge)"]
  else []

/-- `cost_subtotal = pre_discount_total + quantity_discount + rush_fee`. -/
def cost_subtotal (s : PrintSpecs) : ℚ :=
  pre_discount_total s + quantity_discount s + rush_fee s

/-- `margin_amount = cost_subtotal * margin_percent`. -/
def margin_amount (s : PrintSpecs) : ℚ := cost_subtotal s * margin_percent

/-- `subtotal = cost_subtotal + margin_amount`, before the minimum-price floor. -/
def subtotal_before_floor (s : PrintSpecs) : ℚ := cost_subtotal s + margin_amount s

/-- `minimum_price = product_config.get("minimum_price", 25.00)`. -/
def minimum_price (s : PrintSpecs) : ℚ := (product_config s).minimum_price

/-- The subtotal after the minimum-price floor: the source replaces the
computed value with the floor outright when it is below the floor. -/
def subtotal (s : PrintSpecs) : ℚ :=
  if subtotal_before_floor s < minimum_price s then minimum_price s
  else subtotal_before_floor s

/-- The note recorded when the minimum-price floor fires. -/
def floor_notes (s : PrintSpecs) : List String :=
  if subtotal_before_floor s < minimum_price s then
    ["Minimum order price of $" ++ format2 (minimum_price s) ++ " applied"]
  else []

/-- `tax = subtotal * tax_rate`. -/
def tax (s : PrintSpecs) : ℚ := subtotal s * tax_rate

/-- `total = subtotal + tax`. -/
def total (s : PrintSpecs) : ℚ := subtotal s + tax s

/-- The note the modifier step records for double-sided printing. -/
def sides_notes (s : PrintSpecs) : List String :=
  if s.sides = some Sides.double then ["Double-sided printing applied"] else []

/-- `estimate_notes`, in the order the source appends them. -/
def estimate_notes (s : PrintSpecs) : List String :=
  sides_notes s ++ option_notes s ++ discount_notes s ++ rush_notes s ++ floor_notes s

/-- `calculate_price`, from `app/services/pricing.py`: assembles the
`PriceEstimate`, rounding each currency-bearing output to two decimals at
output construction, exactly as the source's final constructor call.  The
source annotates the return type `Optional[PriceEstimate]` but every path
returns a constructed estimate. -/
def calculate_price (s : PrintSpecs) : Option PriceEstimate :=
  some
    { print_method := print_method s
      print_method_reason := method_reason s
      breakdown :=
        { material_cost := round2 (material_cost s)
          print_cost := round2 (print_cost s)
          setup_cost := round2 (setup_cost s)
          finishing_cost := round2 (finishing_cost s)
          option_costs := (option_costs s).map (fun p => (p.1, round2 p.2))
          rush_fee := round2 (rush_fee s)
          quantity_discount := round2 (quantity_discount s)
          margin_amount := round2 (margin_amount s)
          margin_percent := margin_percent * 100 }
      subtotal := round2 (subtotal s)
      tax := round2 (tax s)
      total := round2 (total s)
      currency := "USD"
      estimate_notes := estimate_notes s }

/-! ## Accessors into the (optional) estimate, used to state claims about the
reported breakdown without binding the estimate. -/

/-- The material cost reported in the breakdown. -/
def breakdown_material (s : PrintSpecs) : Option ℚ :=
  (calculate_price s).map (PricingBreakdown.material_cost ∘ PriceEstimate.breakdown)

/-- The print cost reported in the breakdown. -/
def breakdown_print (s : PrintSpecs) : Option ℚ :=
  (calculate_price s).map (PricingBreakdown.print_cost ∘ PriceEstimate.breakdown)

/-- The setup cost reported in the breakdown. -/
def breakdown_setup (s : PrintSpecs) : Option ℚ :=
  (calculate_price s).map (PricingBreakdown.setup_cost ∘ PriceEstimate.breakdown)

/-- The finishing cost reported in the breakdown. -/
def breakdown_finishing (s : PrintSpecs) : Option ℚ :=
  (calculate_price s).map (PricingBreakdown.finishing_cost ∘ PriceEstimate.breakdown)

/-- The rush fee reported in the breakdown. -/
def breakdown_rush_fee (s : PrintSpecs) : Option ℚ :=
  (calculate_price s).map (PricingBreakdown.rush_fee ∘ PriceEstimate.breakdown)

/-- The quantity discount reported in the breakdown. -/
def breakdown_discount (s : PrintSpecs) : Option ℚ :=
  (calculate_price s).map (PricingBreakdown.quantity_discount ∘ PriceEstimate.breakdown)

/-- The per-option costs reported in the breakdown. -/
def breakdown_option_costs (s : PrintSpecs) : Option (List (String × ℚ)) :=
  (calculate_price s).map (PricingBreakdown.option_costs ∘ PriceEstimate.breakdown)

/-- The subtotal reported in the estimate. -/
def estimate_subtotal (s : PrintSpecs) : Option ℚ :=
  (calculate_price s).map PriceEstimate.subtotal

/-- The total reported in the estimate. -/
def estimate_total (s : PrintSpecs) : Option ℚ :=
  (calculate_price s).map PriceEstimate.total

/-- The print method reported in the estimate. -/
def estimate_method (s : PrintSpecs) : Option String :=
  (calculate_price s).map PriceEstimate.print_method

/-- The notes reported in the estimate. -/
def notes_of (s : PrintSpecs) : Option (List String) :=
  (calculate_price s).map PriceEstimate.estimate_notes

/-- Replace only the quantity of a specification (for "holding all else
fixed" statements). -/
def withQ (s : PrintSpecs) (q : Int) : PrintSpecs := { s with quantity := some q }

/-! ## Concrete inputs used by counterexamples and witnesses. -/

/-- A specification with every field left at its default. -/
def blankSpec : PrintSpecs := {}

/-- A specification that fixes only the quantity. -/
def specQ (q : Int) : PrintSpecs := { quantity := some q }

/-- One business card (below the product minimum order quantity). -/
def bcOne : PrintSpecs := { product_type := some "business_cards", quantity := some 1 }

/-- The validation-completeness example: unknown product type and quantity -1. -/
def c6Spec : PrintSpecs := { product_type := some "unknown_xyz", quantity := some (-1) }

/-- The rush/slow-option conflict example: 1-day turnaround with embossing. -/
def c7Spec : PrintSpecs := { turnaround_days := some 1, options := ["embossing"] }

/-- An unknown product with an unknown option. -/
def c8Spec : PrintSpecs :=
  { product_type := some "mystery_product", quantity := some 10,
    options := ["glitter_coating"] }

/-- A rush-flagged order quoting a 5-day turnaround. -/
def c10Spec : PrintSpecs :=
  { product_type := some "flyers", quantity := some 100,
    is_rush := some true, turnaround_days := some 5 }

/-- A 2-day rush order with a volume discount (300 flyers). -/
def c2Spec : PrintSpecs :=
  { product_type := some "flyers", quantity := some 300, turnaround_days := some 2 }

/-! ## Infrastructure lemmas -/

theorem roundHalfEven_ge (x : ℚ) : ⌊x⌋ ≤ roundHalfEven x := by
  unfold roundHalfEven
  dsimp only
  split_ifs <;> omega

theorem roundHalfEven_le (x : ℚ) : roundHalfEven x ≤ ⌊x⌋ + 1 := by
  unfold roundHalfEven
  dsimp only
  split_ifs <;> omega

theorem roundHalfEven_mono {x y : ℚ} (h : x ≤ y) : roundHalfEven x ≤ roundHalfEven y := by
  have hf : ⌊x⌋ ≤ ⌊y⌋ := Int.floor_mono h
  rcases eq_or_lt_of_le hf with heq | hlt
  · unfold roundHalfEven
    dsimp only
    rw [← heq]
    have hd : x - ⌊x⌋ ≤ y - ⌊x⌋ := by linarith
    split_ifs <;> first | omega | linarith
  · calc roundHalfEven x ≤ ⌊x⌋ + 1 := roundHalfEven_le x
      _ ≤ ⌊y⌋ := by omega
      _ ≤ roundHalfEven y := roundHalfEven_ge y

theorem roundHalfEven_nonneg {x : ℚ} (h : 0 ≤ x) : 0 ≤ roundHalfEven x := by
  have h1 : (0 : ℤ) ≤ ⌊x⌋ := Int.floor_nonneg.2 h
  have h2 := roundHalfEven_ge x
  omega

theorem round2_mono {x y : ℚ} (h : x ≤ y) : round2 x ≤ round2 y := by
  unfold round2
  have h1 : roundHalfEven (x * 100) ≤ roundHalfEven (y * 100) :=
    roundHalfEven_mono (by linarith)
  have h2 : (roundHalfEven (x * 100) : ℚ) ≤ (roundHalfEven (y * 100) : ℚ) := by
    exact_mod_cast h1
  linarith

theorem round2_nonneg {x : ℚ} (h : 0 ≤ x) : 0 ≤ round2 x := by
  unfold round2
  have h1 : (0 : ℤ) ≤ roundHalfEven (x * 100) := roundHalfEven_nonneg (by linarith)
  have h2 : (0 : ℚ) ≤ (roundHalfEven (x * 100) : ℚ) := by exact_mod_cast h1
  linarith

theorem products_cases {k : String} {p : ProductConfig} (h : products k = some p) :
    0 ≤ p.material_per_unit ∧ 0 ≤ p.print_per_unit ∧ 0 ≤ p.finishing_per_unit ∧
      0 < p.minimum_price := by
  unfold products at h
  split_ifs at h <;> cases h <;>
    exact ⟨by norm_num [defaultProduct], by norm_num [defaultProduct],
      by norm_num [defaultProduct], by norm_num [defaultProduct]⟩

theorem product_config_nonneg (s : PrintSpecs) :
    0 ≤ (product_config s).material_per_unit ∧ 0 ≤ (product_config s).print_per_unit ∧
      0 ≤ (product_config s).finishing_per_unit ∧ 0 < (product_config s).minimum_price := by
  unfold product_config
  rcases h : products (pyOrStr s.product_type "default") with _ | p
  · exact ⟨by norm_num [defaultProduct], by norm_num [defaultProduct],
      by norm_num [defaultProduct], by norm_num [defaultProduct]⟩
  · simpa using products_cases h

theorem modifiers_pos {k : String} {v : ℚ} (h : modifiers k = some v) : 0 < v := by
  unfold modifiers at h
  split_ifs at h <;> cases h <;> norm_num

theorem getD_modifiers_pos (k : String) (d : ℚ) (hd : 0 < d) : 0 < (modifiers k).getD d := by
  rcases h : modifiers k with _ | v
  · simpa using hd
  · simpa using modifiers_pos h

theorem modifier_total_pos (s : PrintSpecs) : 0 < modifier_total s := by
  unfold modifier_total
  refine mul_pos (mul_pos ?_ ?_) ?_
  · split_ifs
    · exact getD_modifiers_pos _ _ (by norm_num)
    · norm_num
  · rcases s.color_mode with _ | cm
    · norm_num
    · exact getD_modifiers_pos _ _ one_pos
  · rcases s.finish with _ | f
    · norm_num
    · dsimp only
      split_ifs
      · norm_num
      · exact getD_modifiers_pos _ _ (getD_modifiers_pos _ _ one_pos)
      · exact getD_modifiers_pos _ _ (getD_modifiers_pos _ _ one_pos)

theorem effQuantity_pos {s : PrintSpecs} (h : s.Wf) : 1 ≤ effQuantity s := by
  unfold effQuantity pyOrInt
  rcases hq : s.quantity with _ | q
  · norm_num
  · have h1 := h q (by simp [hq])
    dsimp only
    split_ifs <;> omega

theorem print_method_digital {s : PrintSpecs} (h : effQuantity s < 500) :
    print_method s = "digital" := by
  unfold print_method determine_print_method threshold_quantity
  rw [if_pos h]

theorem print_method_offset {s : PrintSpecs} (h : 500 ≤ effQuantity s) :
    print_method s = "offset" := by
  unfold print_method determine_print_method threshold_quantity
  rw [if_neg (by omega)]

theorem method_config_cases (s : PrintSpecs) :
    method_config s = { setup_cost := 15, cost_multiplier := 1 } ∨
    method_config s = { setup_cost := 150, cost_multiplier := 6/10 } := by
  unfold method_config print_method determine_print_method threshold_quantity
  split_ifs
  · exact Or.inl rfl
  · exact Or.inr rfl

theorem method_config_nonneg (s : PrintSpecs) :
    0 ≤ (method_config s).cost_multiplier ∧ 0 ≤ (method_config s).setup_cost := by
  rcases method_config_cases s with h | h <;> rw [h] <;> exact ⟨by norm_num, by norm_num⟩

theorem sortTiersDesc_eval : sortTiersDesc quantity_discounts =
    [⟨10000, 25/100⟩, ⟨5000, 20/100⟩, ⟨1000, 15/100⟩, ⟨500, 10/100⟩, ⟨250, 5/100⟩] := by
  norm_num [sortTiersDesc, quantity_discounts, insertTierDesc]

theorem discount_rate_bounds (q : Int) : 0 ≤ discount_rate q ∧ discount_rate q ≤ 25/100 := by
  unfold discount_rate
  rcases h : selected_tier q with _ | t
  · norm_num
  · unfold selected_tier at h
    rw [sortTiersDesc_eval] at h
    have hm := List.mem_of_find?_eq_some h
    simp at hm
    rcases hm with h1 | h1 | h1 | h1 | h1 <;> subst h1 <;> norm_num

theorem quantity_discount_eq (s : PrintSpecs) :
    quantity_discount s = -pre_discount_total s * discount_rate (effQuantity s) := by
  unfold quantity_discount discount_rate
  rcases h : selected_tier (effQuantity s) with _ | t
  · simp only [h]
    ring
  · simp only [h]

theorem rush_multiplier_ge_one (s : PrintSpecs) : 1 ≤ rush_multiplier s := by
  unfold rush_multiplier rush_same_day rush_next_day rush_2_day
  split_ifs <;> norm_num

set_option maxHeartbeats 1000000 in
theorem options_config_price_nonneg {k : String} {oc : OptionConfig}
    (h : options_config k = some oc) : 0 ≤ oc.price := by
  unfold options_config at h
  split_ifs at h <;> cases h <;> norm_num

theorem option_cost_nonneg {s : PrintSpecs} {oc : OptionConfig} (hq : 0 ≤ (effQuantity s : ℚ))
    (hp : 0 ≤ oc.price) : 0 ≤ option_cost s oc := by
  unfold option_cost
  rcases oc with ⟨p, k⟩
  rcases k
  · exact hp
  · exact mul_nonneg hp hq

theorem mem_dictInsert {d : List (String × ℚ)} {k : String} {v : ℚ} {p : String × ℚ}
    (hp : p ∈ dictInsert d k v) : p ∈ d ∨ p = (k, v) := by
  unfold dictInsert at hp
  split_ifs at hp
  · rcases List.mem_map.1 hp with ⟨q, hq, he⟩
    split_ifs at he
    · exact Or.inr he.symm
    · exact Or.inl (he ▸ hq)
  · rcases List.mem_append.1 hp with h | h
    · exact Or.inl h
    · simp at h
      exact Or.inr h

theorem option_costs_spec (s : PrintSpecs) :
    ∀ p ∈ option_costs s, ∃ oc, options_config p.1 = some oc ∧ p.2 = option_cost s oc := by
  unfold option_costs
  suffices h : ∀ (l : List String) (acc : List (String × ℚ)),
      (∀ p ∈ acc, ∃ oc, options_config p.1 = some oc ∧ p.2 = option_cost s oc) →
      ∀ p ∈ l.foldl (fun acc o => match options_config o with
          | some oc => dictInsert acc o (option_cost s oc)
          | none => acc) acc,
        ∃ oc, options_config p.1 = some oc ∧ p.2 = option_cost s oc by
    exact h s.options [] (by simp)
  intro l
  induction l with
  | nil =>
      intro acc hacc p hp
      exact hacc p (by simpa using hp)
  | cons o rest ih =>
      intro acc hacc p hp
      rw [List.foldl_cons] at hp
      rcases hoc : options_config o with _ | oc
      · simp only [hoc] at hp
        exact ih _ hacc p hp
      · simp only [hoc] at hp
        refine ih _ ?_ p hp
        intro q hq
        rcases mem_dictInsert hq with h | h
        · exact hacc q h
        · refine ⟨oc, ?_, ?_⟩
          · rw [h]
            exact hoc
          · rw [h]

theorem effQuantity_cast_nonneg {s : PrintSpecs} (h : s.Wf) : (0 : ℚ) ≤ (effQuantity s : ℚ) := by
  have h1 := effQuantity_pos h
  exact_mod_cast le_trans zero_le_one h1

theorem material_cost_nonneg {s : PrintSpecs} (h : s.Wf) : 0 ≤ material_cost s := by
  unfold material_cost
  exact mul_nonneg (product_config_nonneg s).1 (effQuantity_cast_nonneg h)

theorem print_cost_nonneg {s : PrintSpecs} (h : s.Wf) : 0 ≤ print_cost s := by
  unfold print_cost
  exact mul_nonneg (mul_nonneg (mul_nonneg (product_config_nonneg s).2.1
    (effQuantity_cast_nonneg h)) (method_config_nonneg s).1) (modifier_total_pos s).le

theorem setup_cost_nonneg (s : PrintSpecs) : 0 ≤ setup_cost s := (method_config_nonneg s).2

theorem finishing_cost_nonneg {s : PrintSpecs} (h : s.Wf) : 0 ≤ finishing_cost s := by
  unfold finishing_cost
  exact mul_nonneg (mul_nonneg (product_config_nonneg s).2.2.1
    (effQuantity_cast_nonneg h)) (modifier_total_pos s).le

theorem option_costs_nonneg {s : PrintSpecs} (h : s.Wf) :
    ∀ p ∈ option_costs s, (0 : ℚ) ≤ p.2 := by
  intro p hp
  rcases option_costs_spec s p hp with ⟨oc, hoc, hv⟩
  rw [hv]
  exact option_cost_nonneg (effQuantity_cast_nonneg h) (options_config_price_nonneg hoc)

theorem options_total_nonneg {s : PrintSpecs} (h : s.Wf) : 0 ≤ options_total s := by
  unfold options_total
  apply List.sum_nonneg
  intro x hx
  rcases List.mem_map.1 hx with ⟨p, hp, he⟩
  rw [← he]
  exact option_costs_nonneg h p hp

theorem pre_discount_total_nonneg {s : PrintSpecs} (h : s.Wf) : 0 ≤ pre_discount_total s := by
  unfold pre_discount_total base_total
  have h1 := material_cost_nonneg h
  have h2 := print_cost_nonneg h
  have h3 := setup_cost_nonneg s
  have h4 := finishing_cost_nonneg h
  have h5 := options_total_nonneg h
  linarith

theorem post_discount_nonneg {s : PrintSpecs} (h : s.Wf) :
    0 ≤ pre_discount_total s + quantity_discount s := by
  rw [quantity_discount_eq]
  have h1 := pre_discount_total_nonneg h
  have h2 := discount_rate_bounds (effQuantity s)
  nlinarith [h1, h2.1, h2.2]

theorem rush_fee_nonneg {s : PrintSpecs} (h : s.Wf) : 0 ≤ rush_fee s := by
  unfold rush_fee
  split_ifs
  · have h1 := post_discount_nonneg h
    have h2 := rush_multiplier_ge_one s
    nlinarith
  · exact le_refl 0

theorem cost_subtotal_nonneg {s : PrintSpecs} (h : s.Wf) : 0 ≤ cost_subtotal s := by
  unfold cost_subtotal
  have h1 := post_discount_nonneg h
  have h2 := rush_fee_nonneg h
  linarith

theorem margin_amount_nonneg {s : PrintSpecs} (h : s.Wf) : 0 ≤ margin_amount s := by
  unfold margin_amount margin_percent
  have h1 := cost_subtotal_nonneg h
  nlinarith

theorem subtotal_nonneg {s : PrintSpecs} (h : s.Wf) : 0 ≤ subtotal s := by
  unfold subtotal
  split_ifs
  · exact le_of_lt (by unfold minimum_price; exact (product_config_nonneg s).2.2.2)
  · unfold subtotal_before_floor
    have h1 := cost_subtotal_nonneg h
    have h2 := margin_amount_nonneg h
    linarith

theorem tax_eq_zero (s : PrintSpecs) : tax s = 0 := by
  unfold tax tax_rate
  ring

theorem total_nonneg {s : PrintSpecs} (h : s.Wf) : 0 ≤ total s := by
  unfold total
  rw [tax_eq_zero]
  have h1 := subtotal_nonneg h
  linarith

theorem validate_errors_eq (s : PrintSpecs) :
    (validate_specs (some s)).errors = allErrors s := rfl

theorem errors_nonempty_invalid {s : PrintSpecs} {e : String} (h : e ∈ allErrors s) :
    (validate_specs (some s)).is_valid = false := by
  have h1 : allErrors s ≠ [] := List.ne_nil_of_mem h
  unfold validate_specs
  simpa using h1

theorem startsWithList_refl_append (n t : List Char) : startsWithList n (n ++ t) = true := by
  induction n with
  | nil => rfl
  | cons a as ih => simp [startsWithList, ih]

theorem containsList_cons (n : List Char) (c : Char) (rest : List Char) :
    containsList n (c :: rest) = (startsWithList n (c :: rest) || containsList n rest) := rfl

theorem containsList_append_left {n h : List Char} (pre : List Char)
    (hc : containsList n h = true) : containsList n (pre ++ h) = true := by
  induction pre with
  | nil => simpa using hc
  | cons c cs ih => rw [List.cons_append, containsList_cons, ih, Bool.or_true]

theorem containsList_self_append (n t : List Char) : containsList n (n ++ t) = true := by
  rcases he : n ++ t with _ | ⟨c, rest⟩
  · have hn : n = [] := by cases n <;> simp_all
    subst hn
    rfl
  · rw [containsList_cons, ← he, startsWithList_refl_append, Bool.true_or]

theorem strData_append (a b : String) : (a ++ b).data = a.data ++ b.data := rfl

theorem strContains_joinSep {o : String} {l : List String} (h : o ∈ l) (sep : String) :
    strContains (joinSep sep l) o = true := by
  induction l with
  | nil => cases h
  | cons x rest ih =>
      rcases rest with _ | ⟨y, ys⟩
      · have hx : o = x := by simpa using h
        subst hx
        unfold strContains
        have h1 := containsList_self_append o.data []
        simpa using h1
      · rcases List.mem_cons.1 h with hx | hrest
        · subst hx
          show strContains (o ++ sep ++ joinSep sep (y :: ys)) o = true
          unfold strContains
          rw [strData_append, strData_append, List.append_assoc]
          exact containsList_self_append o.data _
        · have h1 := ih hrest
          show strContains (x ++ sep ++ joinSep sep (y :: ys)) o = true
          unfold strContains at h1 ⊢
          rw [strData_append]
          exact containsList_append_left _ h1

theorem startsWithList_append {n l : List Char} (post : List Char)
    (h : startsWithList n l = true) : startsWithList n (l ++ post) = true := by
  induction n generalizing l with
  | nil => rfl
  | cons a as ih =>
      cases l with
      | nil => cases h
      | cons b bs =>
          simp only [startsWithList, Bool.and_eq_true, decide_eq_true_eq] at h
          simp only [List.cons_append, startsWithList, Bool.and_eq_true, decide_eq_true_eq]
          exact ⟨h.1, ih h.2⟩

theorem containsList_nil_needle (h : List Char) : containsList [] h = true := by
  cases h <;> rfl

theorem containsList_append_right {n h : List Char} (post : List Char)
    (hc : containsList n h = true) : containsList n (h ++ post) = true := by
  induction h with
  | nil =>
      have hn : n = [] := by
        cases n with
        | nil => rfl
        | cons a as => cases hc
      subst hn
      simpa using containsList_nil_needle post
  | cons c cs ih =>
      rw [containsList_cons] at hc
      rw [List.cons_append, containsList_cons]
      rcases Bool.or_eq_true_iff.1 hc with h1 | h1
      · rw [show (c :: (cs ++ post)) = ((c :: cs) ++ post) from rfl,
          startsWithList_append post h1, Bool.true_or]
      · rw [ih h1, Bool.or_true]

theorem mem_dedupFirstAux {x : String} :
    ∀ (l seen : List String), x ∈ dedupFirstAux seen l ↔ x ∈ l ∧ x ∉ seen := by
  intro l
  induction l with
  | nil =>
      intro seen
      simp [dedupFirstAux]
  | cons a rest ih =>
      intro seen
      unfold dedupFirstAux
      split_ifs with hc
      · have ha : a ∈ seen := by simpa using hc
        rw [ih]
        by_cases hxa : x = a <;> simp [hxa, ha]
      · have ha : a ∉ seen := by simpa using hc
        rw [List.mem_cons, ih]
        by_cases hxa : x = a <;> simp [hxa, ha, List.mem_cons]

theorem mem_conflicting {s : PrintSpecs} {o : String} (ho : o ∈ s.options)
    (hs : o ∈ slow_options) : o ∈ conflicting s := by
  unfold conflicting dedupFirst
  rw [mem_dedupFirstAux]
  refine ⟨List.mem_filter.2 ⟨ho, by simpa using hs⟩, by simp⟩

theorem conflict_in_turnaround {s : PrintSpecs} {t : Int} (ht : s.turnaround_days = some t)
    (ht2 : t ≤ 2) (hopt : s.options ≠ []) (hconf : conflicting s ≠ []) :
    conflictError s ∈ turnaroundErrors s := by
  unfold turnaroundErrors
  simp only [ht]
  apply List.mem_append.2
  right
  rw [if_pos ⟨ht2, hopt⟩, if_pos hconf]
  simp

theorem strContains_conflictError {s : PrintSpecs} {o : String} (h : o ∈ conflicting s) :
    strContains (conflictError s) o = true := by
  unfold conflictError strContains
  rw [strData_append, strData_append]
  have h1 := strContains_joinSep h ", "
  unfold strContains at h1
  rw [List.append_assoc]
  exact containsList_append_left _ (containsList_append_right _ h1)

/-- C7: a turnaround of at most 2 days combined with any slow-production
option (foil stamping, embossing, die cut) makes the validator emit a
blocking error that names the conflicting option, and the result is
invalid. -/
theorem C7_rush_slow_conflict (s : PrintSpecs) (t : Int) (o : String)
    (ht : s.turnaround_days = some t) (ht2 : t ≤ 2) (ho : o ∈ s.options)
    (hslow : o ∈ slow_options) :
    (validate_specs (some s)).is_valid = false ∧
    conflictError s ∈ (validate_specs (some s)).errors ∧
    strContains (conflictError s) o = true := by
  have hconfmem := mem_conflicting ho hslow
  have hconf : conflicting s ≠ [] := List.ne_nil_of_mem hconfmem
  have hopt : s.options ≠ [] := List.ne_nil_of_mem ho
  have hmem : conflictError s ∈ turnaroundErrors s :=
    conflict_in_turnaround ht ht2 hopt hconf
  have hall : conflictError s ∈ allErrors s := by
    unfold allErrors
    simp only [List.mem_append]
    tauto
  refine ⟨errors_nonempty_invalid hall, ?_, strContains_conflictError hconfmem⟩
  rw [validate_errors_eq]
  exact hall

/-- C7 witness: turnaround_days = 1 with options = ["embossing"] yields a
blocking error mentioning "embossing" and an invalid result. -/
theorem C7_rush_slow_conflict_witness :
    c7Spec.turnaround_days = some 1 ∧ (1 : Int) ≤ 2 ∧ "embossing" ∈ c7Spec.options ∧
    "embossing" ∈ slow_options ∧
    ((validate_specs (some c7Spec)).is_valid = false ∧
     conflictError c7Spec ∈ (validate_specs (some c7Spec)).errors ∧
     strContains (conflictError c7Spec) "embossing" = true) :=
  ⟨by decide, by decide, by decide, by decide,
    C7_rush_slow_conflict c7Spec 1 "embossing" (by decide) (by decide) (by decide) (by decide)⟩

/-- C6: the validator accumulates all findings: the specification with
product type "unknown_xyz" and quantity -1 is rejected with two distinct
errors, one naming the unknown product type and one the non-positive
quantity. -/
theorem C6_validation_completeness :
    (validate_specs (some c6Spec)).is_valid = false ∧
    2 ≤ (validate_specs (some c6Spec)).errors.length ∧
    (validate_specs (some c6Spec)).errors.Nodup ∧
    ((validate_specs (some c6Spec)).errors.any fun e => strContains e "unknown_xyz") = true ∧
    ((validate_specs (some c6Spec)).errors.any fun e =>
      strContains e "Quantity must be a positive number") = true := by
  refine ⟨by decide, by decide, by decide, by decide, by decide⟩

theorem strContains_self_after (pre s : String) : strContains (pre ++ s) s = true := by
  unfold strContains
  rw [strData_append]
  apply containsList_append_left
  have h1 := containsList_self_append s.data []
  simpa using h1

theorem strContains_append_post {s pat : String} (post : String)
    (h : strContains s pat = true) : strContains (s ++ post) pat = true := by
  unfold strContains at h ⊢
  rw [strData_append]
  exact containsList_append_right _ h

/-- C5: the print-method decision is a pure function of quantity and the
configured threshold (500): strictly below selects "digital", at or above
selects "offset"; 499 yields "digital", 500 yields "offset"; and the
justification string contains the quantity and the threshold. -/
theorem C5_method_threshold (q : Int) :
    (q < threshold_quantity → (determine_print_method q).1 = "digital") ∧
    (threshold_quantity ≤ q → (determine_print_method q).1 = "offset") ∧
    (determine_print_method 499).1 = "digital" ∧
    (determine_print_method 500).1 = "offset" ∧
    strContains (determine_print_method q).2 (toString q) = true ∧
    strContains (determine_print_method q).2 (toString threshold_quantity) = true := by
  refine ⟨?_, ?_, by decide, by decide, ?_, ?_⟩
  · intro h
    unfold determine_print_method
    rw [if_pos h]
  · intro h
    unfold determine_print_method
    rw [if_neg (by omega)]
  · unfold determine_print_method
    split_ifs
    · exact strContains_append_post _ (strContains_append_post _
        (strContains_append_post _ (strContains_self_after _ _)))
    · exact strContains_append_post _ (strContains_append_post _
        (strContains_append_post _ (strContains_self_after _ _)))
  · unfold determine_print_method
    split_ifs
    · exact strContains_append_post _ (strContains_self_after _ _)
    · exact strContains_append_post _ (strContains_self_after _ _)

/-- C5 witness: quantity 499 selects "digital" and quantity 500 selects
"offset". -/
theorem C5_method_threshold_witness :
    (determine_print_method 499).1 = "digital" ∧
    (determine_print_method 500).1 = "offset" :=
  ⟨(C5_method_threshold 499).1 (by decide), (C5_method_threshold 500).2.1 (by decide)⟩

/-- C3: the quantity discount scans tiers from highest minimum to lowest and
takes the first whose minimum is ≤ the quantity; the default schedule is 0
for 1-249, 0.05 at 250, 0.10 at 500, 0.15 at 1000, 0.20 at 5000, 0.25 at
10000; the recorded amount is minus (pre-discount total × fraction). -/
theorem C3_discount_tiers (q : Int) (hq : 1 ≤ q) :
    selected_tier q =
      (sortTiersDesc quantity_discounts).find? (fun t => q ≥ t.min_quantity) ∧
    (q ≤ 249 → discount_rate q = 0) ∧
    discount_rate 250 = 0.05 ∧ discount_rate 500 = 0.10 ∧ discount_rate 1000 = 0.15 ∧
    discount_rate 5000 = 0.20 ∧ discount_rate 10000 = 0.25 ∧
    ∀ s : PrintSpecs, quantity_discount s =
      -(pre_discount_total s * discount_rate (effQuantity s)) := by
  refine ⟨rfl, ?_, ?_, ?_, ?_, ?_, ?_, ?_⟩
  · intro h249
    have hnone : selected_tier q = none := by
      unfold selected_tier
      rw [sortTiersDesc_eval]
      rw [List.find?_eq_none]
      intro t ht
      simp at ht
      rcases ht with h | h | h | h | h <;> subst h <;> simp <;> omega
    simp [discount_rate, hnone]
  · unfold discount_rate selected_tier
    rw [sortTiersDesc_eval]
    norm_num +decide [List.find?]
  · unfold discount_rate selected_tier
    rw [sortTiersDesc_eval]
    norm_num +decide [List.find?]
  · unfold discount_rate selected_tier
    rw [sortTiersDesc_eval]
    norm_num +decide [List.find?]
  · unfold discount_rate selected_tier
    rw [sortTiersDesc_eval]
    norm_num +decide [List.find?]
  · unfold discount_rate selected_tier
    rw [sortTiersDesc_eval]
    norm_num +decide [List.find?]
  · intro s
    rw [quantity_discount_eq]
    ring

/-- C3 witness: at quantity 100 no tier applies (rate 0); the schedule values
hold. -/
theorem C3_discount_tiers_witness :
    (1 : Int) ≤ 100 ∧ ((100 : Int) ≤ 249 → discount_rate 100 = 0) ∧
    discount_rate 250 = 0.05 :=
  ⟨by norm_num, (C3_discount_tiers 100 (by norm_num)).2.1,
    (C3_discount_tiers 100 (by norm_num)).2.2.1⟩

/-- C10: whenever the rush branch triggers but turnaround_days is not exactly
0, 1, or 2 (absent, negative, or greater than 2), the next-day multiplier
1.5 applies, the note is labeled "Rush", and the fee is 50% of the
post-discount base. -/
theorem C10_rush_fallback (s : PrintSpecs) (hc : rush_condition s = true)
    (h0 : s.turnaround_days ≠ some 0) (h1 : s.turnaround_days ≠ some 1)
    (h2 : s.turnaround_days ≠ some 2) :
    rush_multiplier s = 1.5 ∧ rush_type s = "Rush" ∧
    rush_fee s = (pre_discount_total s + quantity_discount s) * (1.5 - 1) ∧
    "Rush rush fee applied (50% surcharge)" ∈ estimate_notes s := by
  have hm : rush_multiplier s = 1.5 := by
    unfold rush_multiplier
    rw [if_neg h0, if_neg h1, if_neg h2]
    norm_num [rush_next_day]
  have hty : rush_type s = "Rush" := by
    unfold rush_type
    rw [if_neg h0, if_neg h1, if_neg h2]
  refine ⟨hm, hty, ?_, ?_⟩
  · unfold rush_fee
    rw [if_pos hc, hm]
  · have hnum : pyInt ((1.5 - 1) * 100 : ℚ) = 50 := by
      norm_num [pyInt]
    have hnote : rush_notes s = ["Rush rush fee applied (50% surcharge)"] := by
      unfold rush_notes
      rw [if_pos hc, hty, hm, hnum]
      decide
    unfold estimate_notes
    rw [hnote]
    simp [List.mem_append]

/-- C10 witness: a rush-flagged order quoting a 5-day turnaround is
surcharged at the next-day (1.5) rate with a "Rush" note. -/
theorem C10_rush_fallback_witness :
    rush_condition c10Spec = true ∧ c10Spec.turnaround_days = some 5 ∧
    (rush_multiplier c10Spec = 1.5 ∧ rush_type c10Spec = "Rush" ∧
     rush_fee c10Spec = (pre_discount_total c10Spec + quantity_discount c10Spec) * (1.5 - 1) ∧
     "Rush rush fee applied (50% surcharge)" ∈ estimate_notes c10Spec) :=
  ⟨by decide, by decide,
    C10_rush_fallback c10Spec (by decide) (by decide) (by decide) (by decide)⟩

/-- C2: when the rush surcharge triggers, the rush fee equals (pre-discount
total + quantity discount) × (multiplier − 1) — the post-discount base —
and the sequencing is: discount, then rush fee, then margin on the sum of
all three, then the minimum-price floor, then tax. -/
theorem C2_rush_base_and_ordering (s : PrintSpecs) (hc : rush_condition s = true) :
    rush_fee s = (pre_discount_total s + quantity_discount s) * (rush_multiplier s - 1) ∧
    cost_subtotal s = pre_discount_total s + quantity_discount s + rush_fee s ∧
    margin_amount s = cost_subtotal s * margin_percent ∧
    subtotal_before_floor s = cost_subtotal s + margin_amount s ∧
    subtotal s = (if subtotal_before_floor s < minimum_price s then minimum_price s
      else subtotal_before_floor s) ∧
    tax s = subtotal s * tax_rate ∧
    total s = subtotal s + tax s ∧
    estimate_subtotal s = some (round2 (subtotal s)) ∧
    estimate_total s = some (round2 (total s)) := by
  refine ⟨?_, rfl, rfl, rfl, rfl, rfl, rfl, rfl, rfl⟩
  unfold rush_fee
  rw [if_pos hc]

/-- C2 witness: the 2-day rush order satisfies the rush condition and its
fee is computed on the post-discount base. -/
theorem C2_rush_base_and_ordering_witness :
    rush_condition c2Spec = true ∧
    rush_fee c2Spec =
      (pre_discount_total c2Spec + quantity_discount c2Spec) * (rush_multiplier c2Spec - 1) :=
  ⟨by decide, (C2_rush_base_and_ordering c2Spec (by decide)).1⟩

/-- C4: when the post-margin subtotal falls below the product's configured
minimum price, the subtotal is replaced by that minimum (not topped up) and
a note is recorded; a business-cards order of quantity 1 reports subtotal
29.99 ≥ 29.99. -/
theorem C4_minimum_floor (s : PrintSpecs)
    (h : subtotal_before_floor s < minimum_price s) :
    subtotal s = minimum_price s ∧
    ("Minimum order price of $" ++ format2 (minimum_price s) ++ " applied")
      ∈ estimate_notes s ∧
    estimate_subtotal bcOne = some 29.99 ∧
    (29.99 : ℚ) ≤ (estimate_subtotal bcOne).getD 0 := by
  have hsub : subtotal bcOne = 2999/100 := by
    norm_num +decide [subtotal, subtotal_before_floor, minimum_price, cost_subtotal,
      margin_amount, pre_discount_total, base_total, options_total, option_costs,
      material_cost, print_cost, setup_cost, finishing_cost, product_config, products,
      pyOrStr, effQuantity, pyOrInt, method_config, print_method, determine_print_method,
      threshold_quantity, print_method_table, modifier_total, modifiers, quantity_discount,
      selected_tier, sortTiersDesc, insertTierDesc, quantity_discounts, rush_fee,
      rush_condition, pyBool, margin_percent, bcOne]
  have hest : estimate_subtotal bcOne = some (round2 (subtotal bcOne)) := rfl
  have hround : round2 (2999/100 : ℚ) = 2999/100 := by
    norm_num [round2, roundHalfEven]
  refine ⟨?_, ?_, ?_, ?_⟩
  · unfold subtotal
    rw [if_pos h]
  · have hfloor : floor_notes s =
        ["Minimum order price of $" ++ format2 (minimum_price s) ++ " applied"] := by
      unfold floor_notes
      rw [if_pos h]
    unfold estimate_notes
    rw [hfloor]
    simp [List.mem_append]
  · rw [hest, hsub, hround]
    norm_num
  · rw [hest, hsub, hround]
    norm_num

/-- C4 witness: the business-cards order of quantity 1 is itself below the
floor (19.604 < 29.99), so the floor fires and the reported subtotal is
29.99. -/
theorem C4_minimum_floor_witness :
    subtotal_before_floor bcOne < minimum_price bcOne ∧
    (subtotal bcOne = minimum_price bcOne ∧
     ("Minimum order price of $" ++ format2 (minimum_price bcOne) ++ " applied")
       ∈ estimate_notes bcOne ∧
     estimate_subtotal bcOne = some 29.99 ∧
     (29.99 : ℚ) ≤ (estimate_subtotal bcOne).getD 0) := by
  have hlt : subtotal_before_floor bcOne < minimum_price bcOne := by
    norm_num +decide [subtotal_before_floor, minimum_price, cost_subtotal,
      margin_amount, pre_discount_total, base_total, options_total, option_costs,
      material_cost, print_cost, setup_cost, finishing_cost, product_config, products,
      pyOrStr, effQuantity, pyOrInt, method_config, print_method, determine_print_method,
      threshold_quantity, print_method_table, modifier_total, modifiers, quantity_discount,
      selected_tier, sortTiersDesc, insertTierDesc, quantity_discounts, rush_fee,
      rush_condition, pyBool, margin_percent, bcOne]
  exact ⟨hlt, C4_minimum_floor bcOne hlt⟩

/-- C8: fail-open pricing: an unknown product type silently falls back to
the "default" product configuration, an unlisted option contributes no cost
and produces an explanatory note, and calculate_price returns an estimate
for every specification despite its Optional return annotation. -/
theorem C8_fail_open (s : PrintSpecs) (p o : String) (hp : s.product_type = some p)
    (hunknown : products p = none) (ho : o ∈ s.options)
    (hopt : options_config o = none) :
    product_config s = defaultProduct ∧
    (∀ pr ∈ option_costs s, pr.1 ≠ o) ∧
    ("Option \x27" ++ o ++ "\x27 not in pricing catalog") ∈ option_notes s ∧
    ("Option \x27" ++ o ++ "\x27 not in pricing catalog") ∈ estimate_notes s ∧
    (∀ s2 : PrintSpecs, (calculate_price s2).isSome = true) := by
  have hpc : product_config s = defaultProduct := by
    unfold product_config pyOrStr
    rw [hp]
    dsimp only
    split_ifs
    · rfl
    · rw [hunknown]
      rfl
  have hnote : ("Option \x27" ++ o ++ "\x27 not in pricing catalog") ∈ option_notes s := by
    unfold option_notes
    apply List.mem_filterMap.2
    refine ⟨o, ho, ?_⟩
    simp only [hopt]
  refine ⟨hpc, ?_, hnote, ?_, fun s2 => rfl⟩
  · intro pr hpr he
    rcases option_costs_spec s pr hpr with ⟨oc, hoc, _⟩
    rw [he, hopt] at hoc
    exact Option.noConfusion hoc
  · unfold estimate_notes
    simp only [List.mem_append]
    tauto

/-- C8 witness: product "mystery_product" and option "glitter_coating" are
unknown; the estimate still exists, uses the default product, skips the
option, and notes it. -/
theorem C8_fail_open_witness :
    c8Spec.product_type = some "mystery_product" ∧
    products "mystery_product" = none ∧
    "glitter_coating" ∈ c8Spec.options ∧
    options_config "glitter_coating" = none ∧
    (product_config c8Spec = defaultProduct ∧
     (∀ pr ∈ option_costs c8Spec, pr.1 ≠ "glitter_coating") ∧
     ("Option \x27glitter_coating\x27 not in pricing catalog") ∈ option_notes c8Spec ∧
     ("Option \x27glitter_coating\x27 not in pricing catalog") ∈ estimate_notes c8Spec ∧
     (∀ s2 : PrintSpecs, (calculate_price s2).isSome = true)) := by
  refine ⟨rfl, rfl, by decide, rfl, ?_⟩
  have h := C8_fail_open c8Spec "mystery_product" "glitter_coating" rfl rfl (by decide) rfl
  simpa using h

/-- C9: under the default configuration, the reported material, print,
setup, and finishing costs, every individual option cost, and the final
total are all nonnegative (for any pydantic-valid specification). -/
theorem C9_nonneg (s : PrintSpecs) (h : s.Wf) :
    0 ≤ round2 (material_cost s) ∧ 0 ≤ round2 (print_cost s) ∧
    0 ≤ round2 (setup_cost s) ∧ 0 ≤ round2 (finishing_cost s) ∧
    (∀ p ∈ option_costs s, (0 : ℚ) ≤ round2 p.2) ∧ 0 ≤ round2 (total s) ∧
    breakdown_material s = some (round2 (material_cost s)) ∧
    breakdown_print s = some (round2 (print_cost s)) ∧
    breakdown_setup s = some (round2 (setup_cost s)) ∧
    breakdown_finishing s = some (round2 (finishing_cost s)) ∧
    estimate_total s = some (round2 (total s)) := by
  refine ⟨round2_nonneg (material_cost_nonneg h), round2_nonneg (print_cost_nonneg h),
    round2_nonneg (setup_cost_nonneg s), round2_nonneg (finishing_cost_nonneg h),
    ?_, round2_nonneg (total_nonneg h), rfl, rfl, rfl, rfl, rfl⟩
  intro p hp
  exact round2_nonneg (option_costs_nonneg h p hp)

/-- C9 witness: the business-cards order of quantity 1 is well-formed and
its reported material cost and total are nonnegative. -/
theorem C9_nonneg_witness :
    bcOne.Wf ∧ 0 ≤ round2 (material_cost bcOne) ∧ 0 ≤ round2 (total bcOne) :=
  ⟨by decide, (C9_nonneg bcOne (by decide)).1, (C9_nonneg bcOne (by decide)).2.2.2.2.2.1⟩

theorem effQuantity_withQ (s : PrintSpecs) {q : Int} (h : 1 ≤ q) :
    effQuantity (withQ s q) = q := by
  unfold effQuantity withQ pyOrInt
  dsimp only
  rw [if_neg (by omega)]

theorem product_config_withQ (s : PrintSpecs) (q : Int) :
    product_config (withQ s q) = product_config s := rfl

theorem modifier_total_withQ (s : PrintSpecs) (q : Int) :
    modifier_total (withQ s q) = modifier_total s := rfl

/-- C1 counterexample: with every other field fixed (default product),
raising the quantity from 499 to 500 strictly decreases the print cost
reported in the breakdown (49.90 → 30.00): the method switches from digital
to offset, whose 0.6 per-unit multiplier outweighs the one extra unit. -/
theorem C1_print_cost_counterexample :
    breakdown_print (specQ 499) = some 49.9 ∧
    breakdown_print (specQ 500) = some 30 ∧
    (30 : ℚ) < 49.9 := by
  have h499 : print_cost (specQ 499) = 499/10 := by
    norm_num +decide [print_cost, product_config, products, defaultProduct, pyOrStr,
      effQuantity, pyOrInt, method_config, print_method, determine_print_method,
      threshold_quantity, print_method_table, modifier_total, modifiers, specQ]
  have h500 : print_cost (specQ 500) = 30 := by
    norm_num +decide [print_cost, product_config, products, defaultProduct, pyOrStr,
      effQuantity, pyOrInt, method_config, print_method, determine_print_method,
      threshold_quantity, print_method_table, modifier_total, modifiers, specQ]
  have hb1 : breakdown_print (specQ 499) = some (round2 (print_cost (specQ 499))) := rfl
  have hb2 : breakdown_print (specQ 500) = some (round2 (print_cost (specQ 500))) := rfl
  refine ⟨?_, ?_, by norm_num⟩
  · rw [hb1, h499]
    norm_num [round2, roundHalfEven]
  · rw [hb2, h500]
    norm_num [round2, roundHalfEven]

/-- C1 (amended): holding all else fixed, increasing the quantity never
decreases the reported material cost or finishing cost; the reported print
cost also never decreases as long as both quantities select the same print
method, but it may decrease when the increase crosses the digital→offset
threshold. -/
theorem C1_monotonicity_amended (s : PrintSpecs) (q1 q2 : Int)
    (h1 : 1 ≤ q1) (h12 : q1 ≤ q2) :
    round2 (material_cost (withQ s q1)) ≤ round2 (material_cost (withQ s q2)) ∧
    round2 (finishing_cost (withQ s q1)) ≤ round2 (finishing_cost (withQ s q2)) ∧
    (print_method (withQ s q1) = print_method (withQ s q2) →
      round2 (print_cost (withQ s q1)) ≤ round2 (print_cost (withQ s q2))) ∧
    breakdown_material (withQ s q1) = some (round2 (material_cost (withQ s q1))) ∧
    breakdown_print (withQ s q1) = some (round2 (print_cost (withQ s q1))) ∧
    breakdown_finishing (withQ s q1) = some (round2 (finishing_cost (withQ s q1))) := by
  have hq1 : effQuantity (withQ s q1) = q1 := effQuantity_withQ s h1
  have hq2 : effQuantity (withQ s q2) = q2 := effQuantity_withQ s (le_trans h1 h12)
  have hqq : (q1 : ℚ) ≤ (q2 : ℚ) := by exact_mod_cast h12
  have hpc := product_config_nonneg s
  refine ⟨?_, ?_, ?_, rfl, rfl, rfl⟩
  · apply round2_mono
    unfold material_cost
    rw [product_config_withQ, product_config_withQ, hq1, hq2]
    exact mul_le_mul_of_nonneg_left hqq hpc.1
  · apply round2_mono
    unfold finishing_cost
    rw [product_config_withQ, product_config_withQ, modifier_total_withQ,
      modifier_total_withQ, hq1, hq2]
    exact mul_le_mul_of_nonneg_right
      (mul_le_mul_of_nonneg_left hqq hpc.2.2.1) (modifier_total_pos s).le
  · intro hmethod
    apply round2_mono
    have hmc : method_config (withQ s q1) = method_config (withQ s q2) := by
      unfold method_config
      rw [hmethod]
    unfold print_cost
    rw [product_config_withQ, product_config_withQ, modifier_total_withQ,
      modifier_total_withQ, hq1, hq2, hmc]
    have hmnn := (method_config_nonneg (withQ s q2)).1
    exact mul_le_mul_of_nonneg_right
      (mul_le_mul_of_nonneg_right
        (mul_le_mul_of_nonneg_left hqq hpc.2.1) hmnn) (modifier_total_pos s).le

/-- C1 witness: quantities 1 and 2 on the blank specification. -/
theorem C1_monotonicity_witness :
    (1 : Int) ≤ 1 ∧ (1 : Int) ≤ 2 ∧
    (round2 (material_cost (withQ blankSpec 1)) ≤ round2 (material_cost (withQ blankSpec 2)) ∧
     round2 (finishing_cost (withQ blankSpec 1)) ≤ round2 (finishing_cost (withQ blankSpec 2)) ∧
     (print_method (withQ blankSpec 1) = print_method (withQ blankSpec 2) →
       round2 (print_cost (withQ blankSpec 1)) ≤ round2 (print_cost (withQ blankSpec 2))) ∧
     breakdown_material (withQ blankSpec 1) =
       some (round2 (material_cost (withQ blankSpec 1))) ∧
     breakdown_print (withQ blankSpec 1) = some (round2 (print_cost (withQ blankSpec 1))) ∧
     breakdown_finishing (withQ blankSpec 1) =
       some (round2 (finishing_cost (withQ blankSpec 1)))) :=
  ⟨by norm_num, by norm_num, C1_monotonicity_amended blankSpec 1 2 (by norm_num) (by norm_num)⟩

end PrintEstimator
